import Mathlib

/-!
# Food-delivery workflow: server handlers and client orchestration

A shallow embedding of `server.js` (the four Express handlers and the seed
data) and of `script.js` (the callback-style orchestration behind the four
buttons), followed by the properties established about them.

Conventions of the embedding.

* JavaScript numbers are exact rationals; the literal `0.15` is the rational
  value of the double it denotes, so comparisons are exact.
* Library behaviour that is not part of the repository (Unicode lower-casing,
  the database regular-expression engine, number and date formatting) is a
  parameter, collected in `Runtime`.  General theorems hold for every runtime;
  concrete scenarios are evaluated with `demoRuntime`.
* A handler that would throw (the database rejects the query) sends no
  response: its result is `none`.
* The artificial `sleep` delays do not influence any result and are omitted.
* Random draws and the clock are explicit arguments.
-/

namespace FoodDelivery

/-! ## JavaScript values -/

/-- JSON values as far as the handlers inspect them: truthiness and `typeof`.
Objects and arrays are represented by the single value `object`. -/
inductive JsVal where
  | undefined
  | null
  | bool (b : Bool)
  | num (x : ℚ)
  | str (s : String)
  | object
  deriving DecidableEq

/-- JavaScript truthiness, the meaning of `!v` negated. -/
def JsVal.truthy : JsVal → Bool
  | .undefined => false
  | .null => false
  | .bool b => b
  | .num x => x != 0
  | .str s => s != ""
  | .object => true

/-- The `typeof` operator. -/
def JsVal.typeof : JsVal → String
  | .undefined => "undefined"
  | .null => "object"
  | .bool _ => "boolean"
  | .num _ => "number"
  | .str _ => "string"
  | .object => "object"

/-- Truthiness of a string-valued field that may be absent. -/
def present : Option String → Bool
  | none => false
  | some s => s != ""

/-- White space and line terminators removed by `String.prototype.trim`. -/
def isJsSpace (c : Char) : Bool :=
  let n := c.toNat
  n == 0x09 || n == 0x0A || n == 0x0B || n == 0x0C || n == 0x0D || n == 0x20 ||
  n == 0xA0 || n == 0x1680 || (0x2000 ≤ n && n ≤ 0x200A) || n == 0x2028 ||
  n == 0x2029 || n == 0x202F || n == 0x205F || n == 0x3000 || n == 0xFEFF

/-- The method `trim()`: strips leading and trailing white space. -/
def trim (s : String) : String :=
  String.mk ((s.data.dropWhile isJsSpace).reverse.dropWhile isJsSpace).reverse

/-- Library behaviour the program relies on. -/
structure Runtime where
  /-- The method `toLowerCase()`. -/
  toLowerCase : String → String
  /-- Compiles a pattern with option `i`; `none` when the database rejects the
  pattern, otherwise the test applied to a subject string. -/
  regex : String → Option (String → Bool)
  /-- Conversion of a number to text in string concatenation. -/
  numToString : ℚ → String
  /-- The expression `new Date(t).toLocaleString()`. -/
  toLocaleString : String → String

/-! ## Data model (`server.js`, lines 14-18) -/

/-- One element of `menu`. -/
structure MenuItem where
  item : String
  price : ℚ
  deriving DecidableEq

/-- A document of the `Restaurant` collection. -/
structure Restaurant where
  name : String
  menu : List MenuItem
  deriving DecidableEq

/-- The collection, in natural (insertion) order. -/
abbrev Catalog := List Restaurant

/-- What a handler sends: `res.status(s).json({ error })` or `res.json(body)`. -/
inductive Response (β : Type) where
  | error (status : Nat) (error : String)
  | ok (body : β)
  deriving DecidableEq

/-- HTTP status of a response. -/
def Response.status {β : Type} : Response β → Nat
  | .error s _ => s
  | .ok _ => 200

/-- Body of `POST /api/order` on success. -/
structure OrderRes where
  message : String
  orderId : String
  amount : ℚ
  deriving DecidableEq

/-- Body of `POST /api/payment` on success. -/
structure PayRes where
  message : String
  paymentId : String
  deriving DecidableEq

/-- Body of `GET /api/delivery` on success. -/
structure DelRes where
  message : String
  deliveredAt : String
  deriving DecidableEq

/-! ## Handlers (`server.js`, lines 28-70) -/

/-- The query `Restaurant.findOne({ name: { $regex: pattern, $options: "i" }})`:
the first document whose name the pattern matches; `none` when the query is
rejected. -/
def findOne (rt : Runtime) (catalog : Catalog) (pattern : String) :
    Option (Option Restaurant) :=
  match rt.regex pattern with
  | none => none
  | some test => some (catalog.find? fun r => test r.name)

/-- The pattern built by the template literal with `^`, the name and `$`. -/
def anchored (name : String) : String := "^" ++ name ++ "$"

/-- Handler of `GET /api/search?name=...`. -/
def search (rt : Runtime) (catalog : Catalog) (queryName : Option String) :
    Option (Response Restaurant) :=
  let name := trim (queryName.getD "")
  if name = "" then some (.error 400 "Restaurant name required.")
  else
    match findOne rt catalog (anchored name) with
    | none => none
    | some none => some (.error 404 "Restaurant not found.")
    | some (some rest) => some (.ok rest)

/-- Body of `POST /api/order`: both fields are strings or absent. -/
structure OrderReq where
  restaurantName : Option String
  item : Option String
  deriving DecidableEq

/-- Handler of `POST /api/order`; `token` is the random suffix of the order id. -/
def order (rt : Runtime) (catalog : Catalog) (req : OrderReq) (token : String) :
    Option (Response OrderRes) :=
  if !present req.restaurantName || !present req.item then
    some (.error 400 "restaurantName and item required.")
  else
    let restaurantName := req.restaurantName.getD ""
    let item := req.item.getD ""
    match findOne rt catalog (anchored restaurantName) with
    | none => none
    | some none => some (.error 404 "Restaurant not found.")
    | some (some rest) =>
      match rest.menu.find? fun m => rt.toLowerCase m.item == rt.toLowerCase item with
      | none => some (.error 400 "Item not available.")
      | some menuItem =>
        let orderId := "ORD-" ++ token
        some (.ok ⟨"Order placed", orderId, menuItem.price⟩)

/-- Body of `POST /api/payment`: arbitrary JSON values. -/
structure PaymentReq where
  orderId : JsVal
  amount : JsVal
  forceFail : JsVal
  deriving DecidableEq

/-- The number denoted by the literal `0.15`: the double `0x3FC3333333333333`. -/
def declineThreshold : ℚ := 5404319552844595 / 36028797018963968

/-- Handler of `POST /api/payment`; `draw` is the value of `Math.random()` used
for the decline decision and `token` the random suffix of the payment id. -/
def payment (req : PaymentReq) (draw : ℚ) (token : String) : Response PayRes :=
  if !req.orderId.truthy || req.amount.typeof != "number" then
    .error 400 "orderId and numeric amount required."
  else
    let fail := if req.forceFail.truthy then true else decide (draw < declineThreshold)
    if fail then .error 402 "Payment declined."
    else
      let paymentId := "PAY-" ++ token
      .ok ⟨"Payment success", paymentId⟩

/-- Handler of `GET /api/delivery?orderId=...`; `now` is the clock reading
`new Date().toISOString()`. -/
def delivery (orderId : Option String) (now : String) : Response DelRes :=
  if !present orderId then .error 400 "orderId required."
  else .ok ⟨"Delivered", now⟩

/-- The documents created by `seed()`. -/
def seedCatalog : Catalog :=
  [ ⟨"Burger Palace", [⟨"Cheese Burger", 5⟩, ⟨"Veg Burger", 4⟩, ⟨"Fries", 2⟩]⟩,
    ⟨"Pasta Hub", [⟨"Alfredo Pasta", 7⟩, ⟨"Pesto Pasta", 8⟩]⟩ ]

/-- The function `seed()`: inserts the samples when the collection is empty. -/
def seed (catalog : Catalog) : Catalog :=
  if catalog.length = 0 then seedCatalog else catalog

/-! ## A runtime for concrete scenarios -/

/-- Lower-casing of the letters `A`-`Z`. -/
def asciiLower (s : String) : String := String.mk (s.data.map Char.toLower)

/-- One pattern element: a literal character or `.`. -/
inductive Atom where
  | lit (c : Char)
  | dot
  deriving DecidableEq

/-- An atom, possibly followed by `*`. -/
inductive Piece where
  | one (a : Atom)
  | many (a : Atom)
  deriving DecidableEq

/-- Characters with a special meaning in a pattern. -/
def isMeta (c : Char) : Bool :=
  c == Char.ofNat 92 || c == '^' || c == '$' || c == '.' || c == '|' || c == '?' ||
  c == '*' || c == '+' || c == '(' || c == ')' || c == '[' || c == ']' ||
  c == Char.ofNat 123 || c == Char.ofNat 125

/-- Reads one atom; any special character other than `.` is outside the fragment. -/
def parseAtom (c : Char) : Option Atom :=
  if c = '.' then some .dot else if isMeta c then none else some (.lit c)

/-- Reads the part of a pattern between `^` and `$`. -/
def parsePieces : List Char → Option (List Piece)
  | [] => some []
  | [c] => (parseAtom c).map fun a => [Piece.one a]
  | c :: d :: rest =>
    match parseAtom c with
    | none => none
    | some a =>
      if d = '*' then (parsePieces rest).map fun ps => Piece.many a :: ps
      else (parsePieces (d :: rest)).map fun ps => Piece.one a :: ps

/-- Caseless match of one character against an atom; `.` excludes the newline. -/
def atomOk (a : Atom) (c : Char) : Bool :=
  match a with
  | .lit d => d.toLower == c.toLower
  | .dot => c != '\n'

/-- Repetition: tries the continuation `k` after each run of matching characters. -/
def starLoop (a : Atom) (k : List Char → Bool) : List Char → Bool
  | [] => k []
  | c :: s => k (c :: s) || (atomOk a c && starLoop a k s)

/-- Anchored match of the pieces against the whole subject; the final `$`
accepts the end of the subject or a last newline. -/
def matchPieces : List Piece → List Char → Bool
  | [], s => s == [] || s == ['\n']
  | .one a :: ps, s =>
    match s with
    | [] => false
    | c :: s2 => atomOk a c && matchPieces ps s2
  | .many a :: ps, s => starLoop a (matchPieces ps) s

/-- Compiles patterns of the shape `^body$` whose body consists of literal
characters, `.` and `*`; other patterns are outside the fragment. -/
def demoRegex (pattern : String) : Option (String → Bool) :=
  match pattern.data with
  | '^' :: rest =>
    if rest.getLast? = some '$' then
      (parsePieces rest.dropLast).map fun ps subject => matchPieces ps subject.data
    else none
  | _ => none

/-- Rendering of a number; whole numbers print as decimal integers. -/
def demoNum (x : ℚ) : String :=
  if x.den = 1 then toString x.num else toString x.num ++ "/" ++ toString x.den

/-- A runtime for evaluating concrete scenarios.  It agrees with JavaScript and
with the database on the inputs used below: ASCII text without line breaks,
whole-number amounts, and patterns `^body$` whose body is made of literal
characters, `.` and `*`.  Dates are left in ISO form. -/
def demoRuntime : Runtime where
  toLowerCase := asciiLower
  regex := demoRegex
  numToString := demoNum
  toLocaleString := id

/-! ## Client state (`script.js`, lines 1-36) -/

/-- The four workflow steps shown by the tracker. -/
inductive Stage where
  | search
  | order
  | payment
  | delivery
  deriving DecidableEq

/-- The class of a tracker element. -/
inductive Flag where
  | pending
  | done
  | failed
  deriving DecidableEq

/-- The class names of the elements `step-search`, `step-order`, `step-payment`
and `step-delivery`. -/
structure Tracker where
  search : Flag
  order : Flag
  payment : Flag
  delivery : Flag
  deriving DecidableEq

/-- Reads the flag of a stage. -/
def Tracker.get (t : Tracker) : Stage → Flag
  | .search => t.search
  | .order => t.order
  | .payment => t.payment
  | .delivery => t.delivery

/-- Writes the flag of a stage. -/
def Tracker.set (t : Tracker) (which : Stage) (f : Flag) : Tracker :=
  match which with
  | .search => { t with search := f }
  | .order => { t with order := f }
  | .payment => { t with payment := f }
  | .delivery => { t with delivery := f }

/-- The object shown in the receipt panel.  `JSON.stringify` followed by
`JSON.parse` returns the same object, so the panel text is kept in parsed form. -/
structure Receipt where
  stage : String
  order : Option OrderRes
  payment : Option PayRes
  delivery : Option DelRes
  deriving DecidableEq

/-- The page elements the script reads or writes. -/
structure Page where
  tracker : Tracker
  statusText : String
  receiptHidden : Bool
  /-- Parsed text of `receiptContent`; `none` when the text is not JSON. -/
  receipt : Option Receipt
  restName : String
  restMenu : String
  cardHidden : Bool
  searchInput : String
  orderItem : String
  forceFail : Bool
  deriving DecidableEq

/-- A request sent by `fetch`. -/
inductive Call where
  | search (name : String)
  | order (restaurantName item : String)
  | payment (orderId : String) (amount : ℚ) (forceFail : Bool)
  | delivery (orderId : String)
  deriving DecidableEq

/-- The callback waiting for a request, with the values its closure captured. -/
inductive Cont where
  | search
  | order
  | chainPayment (orderRes : OrderRes)
  | chainDelivery (orderRes : OrderRes) (payRes : PayRes)
  | pay (r : Receipt)
  | deliver (r : Receipt)
  deriving DecidableEq

/-- The page together with the requests in flight and the log of all requests
sent so far (oldest first). -/
structure World where
  page : Page
  inflight : List (Call × Cont)
  calls : List Call
  deriving DecidableEq

/-- How a `fetch` ends for the script. -/
inductive Fetched (β : Type) where
  /-- The promise chain rejects (no connection, unreadable body). -/
  | failed
  /-- A response with `res.ok` false; `error` is `body.error` when it is a string. -/
  | notOk (error : Option String)
  /-- A response with `res.ok` true. -/
  | ok (body : β)
  deriving DecidableEq

/-- The end of a request, by endpoint. -/
inductive Reply where
  | search (r : Fetched Restaurant)
  | order (r : Fetched OrderRes)
  | payment (r : Fetched PayRes)
  | delivery (r : Fetched DelRes)
  deriving DecidableEq

/-- The arguments a stage function passes to its callback: `cb(err)` with
`body.error || fallback` or the network message, or `cb(null, body)`. -/
def callbackArg {β : Type} (fallback network : String) : Fetched β → Except String β
  | .failed => .error network
  | .notOk e => .error (if present e then e.getD "" else fallback)
  | .ok body => .ok body

/-- The function `resetTracker()`. -/
def resetTracker (w : World) : World :=
  { w with page := { w.page with tracker := ⟨.pending, .pending, .pending, .pending⟩ } }

/-- The function `markDone(which)`. -/
def markDone (which : Stage) (w : World) : World :=
  { w with page := { w.page with tracker := w.page.tracker.set which .done } }

/-- The function `markFailed(which)`. -/
def markFailed (which : Stage) (w : World) : World :=
  { w with page := { w.page with tracker := w.page.tracker.set which .failed } }

/-- The function `setStatus(txt)`. -/
def setStatus (txt : String) (w : World) : World :=
  { w with page := { w.page with statusText := txt } }

/-- The function `showReceipt(obj)`. -/
def showReceipt (obj : Receipt) (w : World) : World :=
  { w with page := { w.page with receiptHidden := false, receipt := some obj } }

/-- Sends a request and registers the callback for its reply. -/
def fetch (c : Call) (cb : Cont) (w : World) : World :=
  { w with inflight := w.inflight ++ [(c, cb)], calls := w.calls ++ [c] }

/-! ## Stage functions (`script.js`, lines 40-87) -/

/-- The function `searchRestaurant(name, cb)` up to the `fetch`. -/
def searchRestaurant (name : String) (cb : Cont) (w : World) : World :=
  let w := setStatus ("Searching for restaurant: " ++ name ++ " ...") w
  let w := markDone .search w
  fetch (.search name) cb w

/-- The function `placeOrder(restaurantName, item, cb)` up to the `fetch`. -/
def placeOrder (restaurantName item : String) (cb : Cont) (w : World) : World :=
  let w := setStatus ("Placing order for " ++ item ++ " at " ++ restaurantName ++ " ...") w
  fetch (.order restaurantName item) cb w

/-- The function `processPayment(orderId, amount, cb)` up to the `fetch`. -/
def processPayment (rt : Runtime) (orderId : String) (amount : ℚ) (cb : Cont)
    (w : World) : World :=
  let w := setStatus ("Processing payment of $" ++ rt.numToString amount ++ " ...") w
  let force := w.page.forceFail
  fetch (.payment orderId amount force) cb w

/-- The function `confirmDelivery(orderId, cb)` up to the `fetch`. -/
def confirmDelivery (orderId : String) (cb : Cont) (w : World) : World :=
  let w := setStatus ("Confirming delivery for " ++ orderId ++ " ...") w
  fetch (.delivery orderId) cb w

/-! ## Button handlers and their callbacks (`script.js`, lines 94-189) -/

/-- The handler `searchBtn.onclick`. -/
def searchBtn_onclick (w : World) : World :=
  let w := resetTracker w
  let w := { w with page := { w.page with cardHidden := true } }
  let name := trim w.page.searchInput
  if name = "" then setStatus "Type a restaurant name to search" w
  else searchRestaurant name .search w

/-- The callback passed to `searchRestaurant` by `searchBtn.onclick`. -/
def searchBtn_cb (rt : Runtime) (res : Except String Restaurant) (w : World) : World :=
  match res with
  | .error err =>
    let w := setStatus ("Search failed: " ++ err) w
    markFailed .search w
  | .ok restaurant =>
    let menu := "<br>".intercalate
      (restaurant.menu.map fun m => m.item ++ " — $" ++ rt.numToString m.price)
    let w := { w with page := { w.page with
      restName := restaurant.name, restMenu := menu, cardHidden := false } }
    let w := setStatus ("Found restaurant: " ++ restaurant.name) w
    markDone .search w

/-- The callback passed to `confirmDelivery` inside the chain. -/
def orderBtn_deliveryCb (rt : Runtime) (orderRes : OrderRes) (payRes : PayRes)
    (res : Except String DelRes) (w : World) : World :=
  match res with
  | .error err =>
    let w := setStatus ("Delivery failed: " ++ err) w
    markFailed .delivery w
  | .ok delRes =>
    let w := setStatus ("Delivered: " ++ rt.toLocaleString delRes.deliveredAt) w
    let w := markDone .delivery w
    showReceipt ⟨"delivered", some orderRes, some payRes, some delRes⟩ w

/-- The callback passed to `processPayment` inside the chain. -/
def orderBtn_paymentCb (orderRes : OrderRes) (res : Except String PayRes)
    (w : World) : World :=
  match res with
  | .error err =>
    let w := setStatus ("Payment failed: " ++ err) w
    markFailed .payment w
  | .ok payRes =>
    let w := setStatus ("Payment successful: " ++ payRes.paymentId) w
    let w := markDone .payment w
    let w := showReceipt ⟨"paid", some orderRes, some payRes, none⟩ w
    confirmDelivery orderRes.orderId (.chainDelivery orderRes payRes) w

/-- The callback passed to `placeOrder` by `orderBtn.onclick`. -/
def orderBtn_cb (rt : Runtime) (res : Except String OrderRes) (w : World) : World :=
  match res with
  | .error err =>
    let w := setStatus ("Order failed: " ++ err) w
    markFailed .order w
  | .ok orderRes =>
    let w := setStatus ("Order Placed: " ++ orderRes.orderId ++ " — amount $" ++
      rt.numToString orderRes.amount) w
    let w := markDone .order w
    let w := showReceipt ⟨"order_placed", some orderRes, none, none⟩ w
    processPayment rt orderRes.orderId orderRes.amount (.chainPayment orderRes) w

/-- The handler `orderBtn.onclick`. -/
def orderBtn_onclick (w : World) : World :=
  let rest := w.page.restName
  let item := trim w.page.orderItem
  if rest = "" ∨ rest = "—" then setStatus "Search a restaurant first" w
  else if item = "" then setStatus "Type the exact menu item to order" w
  else
    let w := markDone .search w
    placeOrder rest item .order w

/-- The callback passed to `processPayment` by `payBtn.onclick`. -/
def payBtn_cb (r : Receipt) (res : Except String PayRes) (w : World) : World :=
  match res with
  | .error err =>
    let w := setStatus ("Payment failed: " ++ err) w
    markFailed .payment w
  | .ok payRes =>
    let w := setStatus ("Payment OK: " ++ payRes.paymentId) w
    let w := markDone .payment w
    showReceipt { r with payment := some payRes } w

/-- The handler `payBtn.onclick`. -/
def payBtn_onclick (rt : Runtime) (w : World) : World :=
  match w.page.receipt with
  | none => setStatus "No receipt/order found. Use the Place Order flow." w
  | some r =>
    match r.order with
    | none => setStatus "No order to pay for — place order first" w
    | some o =>
      if o.orderId = "" then setStatus "No order to pay for — place order first" w
      else processPayment rt o.orderId o.amount (.pay r) w

/-- The callback passed to `confirmDelivery` by `deliverBtn.onclick`. -/
def deliverBtn_cb (rt : Runtime) (r : Receipt) (res : Except String DelRes)
    (w : World) : World :=
  match res with
  | .error err =>
    let w := setStatus ("Delivery failed: " ++ err) w
    markFailed .delivery w
  | .ok delRes =>
    let w := setStatus ("Delivered: " ++ rt.toLocaleString delRes.deliveredAt) w
    let w := markDone .delivery w
    showReceipt { r with delivery := some delRes } w

/-- The handler `deliverBtn.onclick`. -/
def deliverBtn_onclick (w : World) : World :=
  match w.page.receipt with
  | none => setStatus "No receipt/order found. Use the Place Order flow." w
  | some r =>
    match r.order with
    | none => setStatus "No order to confirm delivery for" w
    | some o =>
      if o.orderId = "" then setStatus "No order to confirm delivery for" w
      else confirmDelivery o.orderId (.deliver r) w

/-- The last two lines of the script, run on the page as loaded. -/
def boot (page : Page) : World :=
  setStatus "Ready — search a restaurant to start" (resetTracker ⟨page, [], []⟩)

/-! ## Event loop -/

/-- What can happen to the page: the user edits an input, clicks a button, or
the request at position `i` of the in-flight list ends with reply `r`. -/
inductive Event where
  | typeSearch (s : String)
  | typeItem (s : String)
  | setForceFail (b : Bool)
  | searchClick
  | orderClick
  | payClick
  | deliverClick
  | reply (i : Nat) (r : Reply)
  deriving DecidableEq

/-- Runs the callback `cb` on a reply of its endpoint; `none` when the reply
belongs to another endpoint. -/
def resume (rt : Runtime) (cb : Cont) (r : Reply) (w : World) : Option World :=
  match cb, r with
  | .search, .search f =>
    some (searchBtn_cb rt (callbackArg "Search failed" "Network error while searching" f) w)
  | .order, .order f =>
    some (orderBtn_cb rt (callbackArg "Order failed" "Network error while placing order" f) w)
  | .chainPayment o, .payment f =>
    some (orderBtn_paymentCb o (callbackArg "Payment failed" "Network error during payment" f) w)
  | .chainDelivery o p, .delivery f =>
    some (orderBtn_deliveryCb rt o p
      (callbackArg "Delivery confirmation failed" "Network error while confirming delivery" f) w)
  | .pay r0, .payment f =>
    some (payBtn_cb r0 (callbackArg "Payment failed" "Network error during payment" f) w)
  | .deliver r0, .delivery f =>
    some (deliverBtn_cb rt r0
      (callbackArg "Delivery confirmation failed" "Network error while confirming delivery" f) w)
  | _, _ => none

/-- One event.  A reply for a position that holds no request, or of the wrong
endpoint, does not occur and leaves the world as it is. -/
def step (rt : Runtime) (w : World) : Event → World
  | .typeSearch s => { w with page := { w.page with searchInput := s } }
  | .typeItem s => { w with page := { w.page with orderItem := s } }
  | .setForceFail b => { w with page := { w.page with forceFail := b } }
  | .searchClick => searchBtn_onclick w
  | .orderClick => orderBtn_onclick w
  | .payClick => payBtn_onclick rt w
  | .deliverClick => deliverBtn_onclick w
  | .reply i r =>
    match w.inflight.get? i with
    | none => w
    | some (_, cb) => (resume rt cb r { w with inflight := w.inflight.eraseIdx i }).getD w

/-- A sequence of events, oldest first. -/
def run (rt : Runtime) (w : World) (es : List Event) : World :=
  es.foldl (step rt) w

/-! ## The page against the server -/

/-- The random draws and the clock reading used by the handlers. -/
structure Draws where
  orderToken : String
  paymentDraw : ℚ
  paymentToken : String
  now : String

/-- What `fetch` makes of a response.  Every error response of the handlers has
status 400, 402 or 404, so `res.ok` is false and `body.error` is the message. -/
def toFetched {β : Type} : Response β → Fetched β
  | .error _ e => .notOk (some e)
  | .ok body => .ok body

/-- The server as seen through `fetch`: the request is encoded, handled and the
response decoded; `none` when the handler sends no response. -/
def serve (rt : Runtime) (catalog : Catalog) (d : Draws) : Call → Option Reply
  | .search name =>
    (search rt catalog (some name)).map fun r => Reply.search (toFetched r)
  | .order restaurantName item =>
    (order rt catalog ⟨some restaurantName, some item⟩ d.orderToken).map
      fun r => Reply.order (toFetched r)
  | .payment orderId amount force =>
    some (.payment (toFetched
      (payment ⟨.str orderId, .num amount, .bool force⟩ d.paymentDraw d.paymentToken)))
  | .delivery orderId => some (.delivery (toFetched (delivery (some orderId) d.now)))

/-- Ends the oldest request in flight with the reply of the backend `be`. -/
def answerNext (rt : Runtime) (be : Call → Option Reply) (w : World) : World :=
  match w.inflight with
  | [] => w
  | (c, _) :: _ =>
    match be c with
    | none => w
    | some r => step rt w (.reply 0 r)

/-- Ends requests, oldest first, at most `n` times. -/
def settle (rt : Runtime) (be : Call → Option Reply) : Nat → World → World
  | 0, w => w
  | n + 1, w => settle rt be n (answerNext rt be w)

/-- A chained run: the Place Order click followed by the replies to the
requests it causes (at most three: order, payment, delivery). -/
def chainedRun (rt : Runtime) (be : Call → Option Reply) (w : World) : World :=
  settle rt be 3 (orderBtn_onclick w)

/-! ## Concrete scenarios and observation of events -/

/-- A page for concrete scenarios: nothing searched, nothing typed, the receipt
panel without text. -/
def blankPage : Page where
  tracker := ⟨.pending, .pending, .pending, .pending⟩
  statusText := ""
  receiptHidden := true
  receipt := none
  restName := "—"
  restMenu := ""
  cardHidden := true
  searchInput := ""
  orderItem := ""
  forceFail := false

/-- Draws for concrete scenarios; the payment draw 1/2 is not below the threshold. -/
def demoDraws : Draws where
  orderToken := "K3X9QA"
  paymentDraw := 1 / 2
  paymentToken := "7HQ2M4ZP"
  now := "2024-05-01T12:00:00.000Z"

/-- The world after searching "Pasta Hub" against the seeded catalog and typing
the item `item`. -/
def afterSearch (item : String) : World :=
  step demoRuntime
    (settle demoRuntime (serve demoRuntime seedCatalog demoDraws) 1
      (run demoRuntime (boot blankPage) [.typeSearch "Pasta Hub", .searchClick]))
    (.typeItem item)

/-- The world after searching "Pasta Hub", ticking the force-fail box, clicking
Place Order for "Alfredo Pasta" and receiving the order response: the payment
request of the chain is in flight. -/
def awaitingPayment : World :=
  settle demoRuntime (serve demoRuntime seedCatalog demoDraws) 1
    (run demoRuntime (afterSearch "Alfredo Pasta") [.setForceFail true, .orderClick])

/-- Whether a request ended in success. -/
def Fetched.isOk {β : Type} : Fetched β → Bool
  | .ok _ => true
  | _ => false

/-- The stage whose callback an event runs, and whether that callback receives
a success; `none` for edits, clicks and replies that do not occur. -/
def outcomeOf (w : World) : Event → Option (Stage × Bool)
  | .reply i r =>
    match w.inflight.get? i with
    | none => none
    | some (_, cb) =>
      match cb, r with
      | .search, .search f => some (.search, f.isOk)
      | .order, .order f => some (.order, f.isOk)
      | .chainPayment _, .payment f => some (.payment, f.isOk)
      | .chainDelivery _ _, .delivery f => some (.delivery, f.isOk)
      | .pay _, .payment f => some (.payment, f.isOk)
      | .deliver _, .delivery f => some (.delivery, f.isOk)
      | _, _ => none
  | _ => none

/-- The world after a complete chained run for "Alfredo Pasta" at "Pasta Hub". -/
def delivered : World :=
  run demoRuntime (afterSearch "Alfredo Pasta")
    [.orderClick,
     .reply 0 (.order (.ok ⟨"Order placed", "ORD-K3X9QA", 7⟩)),
     .reply 0 (.payment (.ok ⟨"Payment success", "PAY-7HQ2M4ZP"⟩)),
     .reply 0 (.delivery (.ok ⟨"Delivered", "2024-05-01T12:00:00.000Z"⟩))]

/-! ## Properties of the handlers -/

/-- The order id is never the empty string. -/
theorem orderId_ne_empty (token : String) : "ORD-" ++ token ≠ "" := by
  intro h
  have h2 := congrArg String.length h
  simp [String.length_append] at h2
  exact absurd h2.1 (by decide)

/-- The handler rejects a request with an absent or empty field before the
catalog is consulted: the answer is the same for every runtime and catalog. -/
theorem order_absent_field (rt : Runtime) (catalog : Catalog) (req : OrderReq)
    (token : String) (h : present req.restaurantName = false ∨ present req.item = false) :
    order rt catalog req token = some (.error 400 "restaurantName and item required.") := by
  rcases h with h | h <;> simp [order, h]

/-- C2 (as stated, refuted): the menu of "Cafe" holds an item whose name is the
empty string; the request ("Cafe", "") resolves to that entry and its item
equals that name, yet the handler answers 400 "restaurantName and item
required." -/
theorem order_empty_item_rejected :
    findOne demoRuntime [⟨"Cafe", [⟨"", 3⟩]⟩] (anchored "Cafe")
      = some (some ⟨"Cafe", [⟨"", 3⟩]⟩) ∧
    (∃ m ∈ [(⟨"", 3⟩ : MenuItem)], demoRuntime.toLowerCase m.item = demoRuntime.toLowerCase "") ∧
    order demoRuntime [⟨"Cafe", [⟨"", 3⟩]⟩] ⟨some "Cafe", some ""⟩ "K3X9QA"
      = some (.error 400 "restaurantName and item required.") := by
  refine ⟨by rfl, ⟨⟨"", 3⟩, by simp, by rfl⟩, by rfl⟩

/-- C2 (amended): for every runtime, catalog and request with non-empty
restaurantName and item, if the lookup of restaurantName yields an entry and the
item equals, ignoring letter case, the name of some item of its menu, then the
handler succeeds and the amount is the price of the first menu item whose
lower-cased name equals the lower-cased item.  With the seeded catalog the
request ("burger palace", "cheese burger") succeeds with amount 5. -/
theorem order_matched_item_price (rt : Runtime) (catalog : Catalog)
    (restaurantName item token : String) (rest : Restaurant)
    (hname : restaurantName ≠ "") (hitem : item ≠ "")
    (hrest : findOne rt catalog (anchored restaurantName) = some (some rest))
    (hmenu : ∃ m ∈ rest.menu, rt.toLowerCase m.item = rt.toLowerCase item) :
    (∃ m, rest.menu.find? (fun m => rt.toLowerCase m.item == rt.toLowerCase item) = some m ∧
      order rt catalog ⟨some restaurantName, some item⟩ token
        = some (.ok ⟨"Order placed", "ORD-" ++ token, m.price⟩)) ∧
    order demoRuntime (seed []) ⟨some "burger palace", some "cheese burger"⟩ token
      = some (.ok ⟨"Order placed", "ORD-" ++ token, 5⟩) := by
  constructor
  · obtain ⟨m0, hm0, heq⟩ := hmenu
    cases hfind : rest.menu.find? (fun m => rt.toLowerCase m.item == rt.toLowerCase item) with
    | none =>
      rw [List.find?_eq_none] at hfind
      exact absurd (by simpa using heq) (hfind m0 hm0)
    | some m =>
      refine ⟨m, rfl, ?_⟩
      simp [order, present, hname, hitem, hrest, hfind]
  · rfl

/-- Witness for C2: the seeded entry "Pasta Hub" and the request
("pasta hub", "PESTO PASTA"). -/
theorem order_matched_item_price_witness :
    ∃ m, (seedCatalog.getD 1 ⟨"", []⟩).menu.find?
        (fun m => demoRuntime.toLowerCase m.item == demoRuntime.toLowerCase "PESTO PASTA") = some m ∧
      order demoRuntime seedCatalog ⟨some "pasta hub", some "PESTO PASTA"⟩ "K3X9QA"
        = some (.ok ⟨"Order placed", "ORD-" ++ "K3X9QA", m.price⟩) :=
  (order_matched_item_price demoRuntime seedCatalog "pasta hub" "PESTO PASTA" "K3X9QA"
    (seedCatalog.getD 1 ⟨"", []⟩) (by decide) (by decide) (by rfl)
    ⟨⟨"Pesto Pasta", 8⟩, by simp [seedCatalog], by rfl⟩).1

/-- The error replies of the order handler once its lookup has answered: when
the lookup returns no document the handler answers 404 "Restaurant not found.";
when it returns an entry none of whose menu items has the requested name
ignoring case, it answers "Item not available." (status 400); both are error
responses, which carry neither orderId nor amount. -/
theorem order_unknown_name_or_item (rt : Runtime) (catalog : Catalog)
    (restaurantName item token : String)
    (hname : restaurantName ≠ "") (hitem : item ≠ "") :
    (findOne rt catalog (anchored restaurantName) = some none →
      order rt catalog ⟨some restaurantName, some item⟩ token
        = some (.error 404 "Restaurant not found.")) ∧
    (∀ rest, findOne rt catalog (anchored restaurantName) = some (some rest) →
      (∀ m ∈ rest.menu, rt.toLowerCase m.item ≠ rt.toLowerCase item) →
      order rt catalog ⟨some restaurantName, some item⟩ token
        = some (.error 400 "Item not available.")) ∧
    ((findOne rt catalog (anchored restaurantName) = some none ∨
      ∃ rest, findOne rt catalog (anchored restaurantName) = some (some rest) ∧
        ∀ m ∈ rest.menu, rt.toLowerCase m.item ≠ rt.toLowerCase item) →
      ∀ body, order rt catalog ⟨some restaurantName, some item⟩ token ≠ some (.ok body)) := by
  have h404 : findOne rt catalog (anchored restaurantName) = some none →
      order rt catalog ⟨some restaurantName, some item⟩ token
        = some (.error 404 "Restaurant not found.") := by
    intro h
    simp [order, present, hname, hitem, h]
  have h400 : ∀ rest, findOne rt catalog (anchored restaurantName) = some (some rest) →
      (∀ m ∈ rest.menu, rt.toLowerCase m.item ≠ rt.toLowerCase item) →
      order rt catalog ⟨some restaurantName, some item⟩ token
        = some (.error 400 "Item not available.") := by
    intro rest h hmenu
    have hfind : rest.menu.find? (fun m => rt.toLowerCase m.item == rt.toLowerCase item) = none := by
      rw [List.find?_eq_none]
      intro m hm
      simpa using hmenu m hm
    simp [order, present, hname, hitem, h, hfind]
  refine ⟨h404, h400, ?_⟩
  rintro (h | ⟨rest, h, hmenu⟩) body
  · rw [h404 h]; simp
  · rw [h400 rest h hmenu]; simp

/-- Against the seeded catalog, "Sushi Bar" is not found, and "Pasta Hub" has
no "Fries". -/
theorem order_unknown_name_or_item_seeded :
    order demoRuntime seedCatalog ⟨some "Sushi Bar", some "Fries"⟩ "K3X9QA"
      = some (.error 404 "Restaurant not found.") ∧
    order demoRuntime seedCatalog ⟨some "Pasta Hub", some "Fries"⟩ "K3X9QA"
      = some (.error 400 "Item not available.") :=
  ⟨(order_unknown_name_or_item demoRuntime seedCatalog "Sushi Bar" "Fries" "K3X9QA"
      (by decide) (by decide)).1 (by rfl),
   (order_unknown_name_or_item demoRuntime seedCatalog "Pasta Hub" "Fries" "K3X9QA"
      (by decide) (by decide)).2.1 (seedCatalog.getD 1 ⟨"", []⟩) (by rfl) (by decide)⟩

/-- A validated request is declined when forceFail is set or the draw is low. -/
theorem payment_valid_declined (req : PaymentReq) (draw : ℚ) (token : String)
    (hid : req.orderId.truthy = true) (hamt : req.amount.typeof = "number")
    (hc : req.forceFail.truthy = true ∨ draw < declineThreshold) :
    payment req draw token = .error 402 "Payment declined." := by
  by_cases hf : req.forceFail.truthy = true
  · simp [payment, hid, hamt, hf]
  · rcases hc with hc | hc
    · exact absurd hc hf
    · simp [payment, hid, hamt, hf, hc]

/-- A validated request succeeds when forceFail is not set and the draw is not low. -/
theorem payment_valid_accepted (req : PaymentReq) (draw : ℚ) (token : String)
    (hid : req.orderId.truthy = true) (hamt : req.amount.typeof = "number")
    (hc : ¬ (req.forceFail.truthy = true ∨ draw < declineThreshold)) :
    payment req draw token = .ok ⟨"Payment success", "PAY-" ++ token⟩ := by
  have hf : ¬ req.forceFail.truthy = true := fun h => hc (Or.inl h)
  have hd : ¬ draw < declineThreshold := fun h => hc (Or.inr h)
  simp [payment, hid, hamt, hf, hd]

/-- The draw 1/2 is not below the threshold. -/
theorem half_not_below_threshold : ¬ ((1 / 2 : ℚ) < declineThreshold) := by
  unfold declineThreshold; norm_num

/-- For a draw that is a multiple of 2^-53, being below the threshold is the
same as being below the decimal fraction 15/100. -/
theorem threshold_on_grid (k : ℕ) :
    ((k : ℚ) / 2 ^ 53 < declineThreshold) ↔ ((k : ℚ) / 2 ^ 53 < 15 / 100) := by
  unfold declineThreshold
  rw [div_lt_div_iff₀ (by positivity) (by norm_num),
    div_lt_div_iff₀ (by positivity) (by norm_num)]
  have h1 : ((k : ℚ) * 36028797018963968 < 5404319552844595 * 2 ^ 53) ↔
      k ≤ 1351079888211148 := by
    constructor
    · intro h
      have h2 : (k * 36028797018963968 : ℕ) < 5404319552844595 * 2 ^ 53 := by exact_mod_cast h
      omega
    · intro h
      have h2 : (k * 36028797018963968 : ℕ) < 5404319552844595 * 2 ^ 53 := by omega
      exact_mod_cast h2
  have h3 : ((k : ℚ) * 100 < 15 * 2 ^ 53) ↔ k ≤ 1351079888211148 := by
    constructor
    · intro h
      have h2 : (k * 100 : ℕ) < 15 * 2 ^ 53 := by exact_mod_cast h
      omega
    · intro h
      have h2 : (k * 100 : ℕ) < 15 * 2 ^ 53 := by omega
      exact_mod_cast h2
  rw [h1, h3]

/-- C4: for every payment request that passes validation (truthy orderId,
amount of type number) and every draw: the handler answers 402 exactly when
forceFail is set or the draw is below the threshold `0.15`, in which case the
response is "Payment declined."; otherwise it succeeds with the payment id;
with forceFail set it is declined whatever the draw.  For a draw that is a
multiple of 2^-53 the threshold may be read as the decimal fraction 15/100. -/
theorem payment_declined_iff (req : PaymentReq) (draw : ℚ) (token : String)
    (hid : req.orderId.truthy = true) (hamt : req.amount.typeof = "number") :
    ((payment req draw token).status = 402 ↔
      (req.forceFail.truthy = true ∨ draw < declineThreshold)) ∧
    ((req.forceFail.truthy = true ∨ draw < declineThreshold) →
      payment req draw token = .error 402 "Payment declined.") ∧
    (¬ (req.forceFail.truthy = true ∨ draw < declineThreshold) →
      payment req draw token = .ok ⟨"Payment success", "PAY-" ++ token⟩) ∧
    (req.forceFail.truthy = true → ∀ r : ℚ,
      payment req r token = .error 402 "Payment declined.") ∧
    (∀ k : ℕ, draw = k / 2 ^ 53 →
      ((payment req draw token).status = 402 ↔
        (req.forceFail.truthy = true ∨ draw < 15 / 100))) := by
  have hiff : (payment req draw token).status = 402 ↔
      (req.forceFail.truthy = true ∨ draw < declineThreshold) := by
    by_cases hc : req.forceFail.truthy = true ∨ draw < declineThreshold
    · simp only [payment_valid_declined req draw token hid hamt hc, Response.status, hc]
    · simp only [payment_valid_accepted req draw token hid hamt hc, Response.status, hc]
      decide
  refine ⟨hiff, payment_valid_declined req draw token hid hamt,
    payment_valid_accepted req draw token hid hamt,
    fun hf r => payment_valid_declined req r token hid hamt (Or.inl hf), ?_⟩
  intro k hk
  rw [hiff, hk, threshold_on_grid k]

/-- Witness for C4: a request with forceFail set and the draw 1/2. -/
theorem payment_declined_iff_witness :
    (payment ⟨.str "ORD-K3X9QA", .num 7, .bool true⟩ (1 / 2) "7HQ2M4ZP").status = 402 ∧
    ∀ r : ℚ, payment ⟨.str "ORD-K3X9QA", .num 7, .bool true⟩ r "7HQ2M4ZP"
      = .error 402 "Payment declined." :=
  have h := payment_declined_iff ⟨.str "ORD-K3X9QA", .num 7, .bool true⟩ (1 / 2) "7HQ2M4ZP"
    (by decide) (by decide)
  ⟨h.1.mpr (Or.inl (by decide)), h.2.2.2.1 (by decide)⟩

/-- C5 (as stated, refuted): a request with a non-empty orderId and the
negative amount -5 is not rejected; with a draw of 1/2 the payment succeeds. -/
theorem payment_negative_amount_accepted :
    payment ⟨.str "ORD-K3X9QA", .num (-5), .bool false⟩ (1 / 2) "7HQ2M4ZP"
      = .ok ⟨"Payment success", "PAY-7HQ2M4ZP"⟩ ∧
    (payment ⟨.str "ORD-K3X9QA", .num (-5), .bool false⟩ (1 / 2) "7HQ2M4ZP").status ≠ 400 := by
  have hc : ¬ ((JsVal.bool false).truthy = true ∨ (1 / 2 : ℚ) < declineThreshold) := by
    rintro (hf | hlt)
    · exact absurd hf (by decide)
    · exact half_not_below_threshold hlt
  have h := payment_valid_accepted ⟨.str "ORD-K3X9QA", .num (-5), .bool false⟩ (1 / 2)
    "7HQ2M4ZP" (by decide) (by decide) hc
  exact ⟨h, by rw [h]; decide⟩

/-- C5 (amended): for every payment request, the handler answers 400 if and
only if orderId is falsy (absent or the empty string) or amount is not of type
number; the sign of the amount plays no part: a request with a truthy orderId
and any numeric amount, negative ones included, is not answered 400. -/
theorem payment_invalid_input_iff (req : PaymentReq) (draw : ℚ) (token : String) :
    ((payment req draw token).status = 400 ↔
      (req.orderId.truthy = false ∨ req.amount.typeof ≠ "number")) ∧
    (∀ x : ℚ, req.orderId.truthy = true → req.amount = .num x →
      (payment req draw token).status ≠ 400) := by
  have key : (payment req draw token).status = 400 ↔
      (req.orderId.truthy = false ∨ req.amount.typeof ≠ "number") := by
    by_cases hid : req.orderId.truthy = true
    · by_cases hamt : req.amount.typeof = "number"
      · by_cases hc : req.forceFail.truthy = true ∨ draw < declineThreshold
        · simp [payment_valid_declined req draw token hid hamt hc, Response.status, hid, hamt]
        · simp [payment_valid_accepted req draw token hid hamt hc, Response.status, hid, hamt]
      · simp [payment, hid, hamt, Response.status]
    · simp [payment, hid, Response.status]
  refine ⟨key, ?_⟩
  intro x hid hx hst
  rcases key.mp hst with h | h
  · simp [hid] at h
  · simp [hx, JsVal.typeof] at h

/-- Witness for C5 (amended): the request with amount -5 is not answered 400. -/
theorem payment_invalid_input_iff_witness :
    (payment ⟨.str "ORD-K3X9QA", .num (-5), .bool false⟩ (1 / 2) "7HQ2M4ZP").status ≠ 400 :=
  (payment_invalid_input_iff ⟨.str "ORD-K3X9QA", .num (-5), .bool false⟩ (1 / 2)
    "7HQ2M4ZP").2 (-5) (by decide) rfl

/-- C6 (failing inputs): against the seeded catalog, an item of three blanks is
empty after trimming, yet the order handler consults the catalog and answers
"Item not available."; a restaurantName of three blanks is answered 404
"Restaurant not found."; the search handler, which trims, answers 400 for the
same name. -/
theorem order_blank_field_not_invalid_input :
    trim "   " = "" ∧
    order demoRuntime seedCatalog ⟨some "Burger Palace", some "   "⟩ "K3X9QA"
      = some (.error 400 "Item not available.") ∧
    order demoRuntime seedCatalog ⟨some "   ", some "Fries"⟩ "K3X9QA"
      = some (.error 404 "Restaurant not found.") ∧
    search demoRuntime seedCatalog (some "   ")
      = some (.error 400 "Restaurant name required.") := by
  refine ⟨by rfl, by rfl, by rfl, by rfl⟩

/-- C3 (failing inputs): the restaurantName `.*` is not the name of any seeded
entry, ignoring case, and is not empty; the handler does not answer NotFound
but places an order at "Burger Palace" and returns an orderId and the amount 5.
And whenever the database rejects the pattern built from the restaurantName
`(`, the handler sends none of its responses, so no NotFound either.  Both
come from the name being used unescaped as a pattern, as in C7. -/
theorem order_pattern_name_not_notfound :
    (∀ r ∈ seedCatalog, demoRuntime.toLowerCase r.name ≠ demoRuntime.toLowerCase ".*") ∧
    order demoRuntime seedCatalog ⟨some ".*", some "Cheese Burger"⟩ "K3X9QA"
      = some (.ok ⟨"Order placed", "ORD-K3X9QA", 5⟩) ∧
    order demoRuntime seedCatalog ⟨some ".*", some "Cheese Burger"⟩ "K3X9QA"
      ≠ some (.error 404 "Restaurant not found.") ∧
    (∀ (rt : Runtime) (catalog : Catalog) (item token : String), item ≠ "" →
      rt.regex (anchored "(") = none →
      order rt catalog ⟨some "(", some item⟩ token = none ∧
      order rt catalog ⟨some "(", some item⟩ token
        ≠ some (.error 404 "Restaurant not found.")) := by
  have h : order demoRuntime seedCatalog ⟨some ".*", some "Cheese Burger"⟩ "K3X9QA"
      = some (.ok ⟨"Order placed", "ORD-K3X9QA", 5⟩) := by rfl
  refine ⟨by decide, h, by rw [h]; simp, ?_⟩
  intro rt catalog item token hitem hrx
  have hnone : order rt catalog ⟨some "(", some item⟩ token = none := by
    have hp : present (some "(") = true := by decide
    simp [order, hp, present, hitem, findOne, hrx]
  exact ⟨hnone, by rw [hnone]; simp⟩

/-- C7 (failing inputs): against the seeded catalog, the query `.*` is not equal
to any entry name ignoring case, yet both the search handler and the order
handler resolve it to "Burger Palace"; the query `Pasta.Hub` resolves to
"Pasta Hub". -/
theorem search_query_read_as_pattern :
    (∀ r ∈ seedCatalog, demoRuntime.toLowerCase r.name ≠ demoRuntime.toLowerCase ".*") ∧
    search demoRuntime seedCatalog (some ".*")
      = some (.ok ⟨"Burger Palace", [⟨"Cheese Burger", 5⟩, ⟨"Veg Burger", 4⟩, ⟨"Fries", 2⟩]⟩) ∧
    order demoRuntime seedCatalog ⟨some ".*", some "Fries"⟩ "K3X9QA"
      = some (.ok ⟨"Order placed", "ORD-K3X9QA", 2⟩) ∧
    demoRuntime.toLowerCase "Pasta Hub" ≠ demoRuntime.toLowerCase "Pasta.Hub" ∧
    search demoRuntime seedCatalog (some "Pasta.Hub")
      = some (.ok ⟨"Pasta Hub", [⟨"Alfredo Pasta", 7⟩, ⟨"Pesto Pasta", 8⟩]⟩) := by
  refine ⟨by decide, by rfl, by rfl, by decide, by rfl⟩

/-! ## Properties of the orchestration -/

/-- The requests a chained run sends, by the replies of the backend. -/
theorem chainedRun_calls (rt : Runtime) (be : Call → Option Reply) (w : World)
    (hidle : w.inflight = []) :
    (chainedRun rt be w).calls = w.calls ++
      (if w.page.restName = "" ∨ w.page.restName = "—" ∨ trim w.page.orderItem = "" then []
       else
        match be (.order w.page.restName (trim w.page.orderItem)) with
        | some (.order (.ok o)) =>
          match be (.payment o.orderId o.amount w.page.forceFail) with
          | some (.payment (.ok _)) =>
            [.order w.page.restName (trim w.page.orderItem),
             .payment o.orderId o.amount w.page.forceFail, .delivery o.orderId]
          | _ =>
            [.order w.page.restName (trim w.page.orderItem),
             .payment o.orderId o.amount w.page.forceFail]
        | _ => [.order w.page.restName (trim w.page.orderItem)]) := by
  obtain ⟨page, inflight, calls⟩ := w
  subst hidle
  by_cases h1 : page.restName = "" ∨ page.restName = "—"
  · have h1b : page.restName = "" ∨ page.restName = "—" ∨ trim page.orderItem = "" := by tauto
    simp [chainedRun, orderBtn_onclick, h1, h1b, settle, answerNext, setStatus]
  · by_cases h2 : trim page.orderItem = ""
    · have h1b : page.restName = "" ∨ page.restName = "—" ∨ trim page.orderItem = "" := by tauto
      simp [chainedRun, orderBtn_onclick, h1, h1b, h2, settle, answerNext, setStatus]
    · have h1b : ¬ (page.restName = "" ∨ page.restName = "—" ∨ trim page.orderItem = "") := by
        tauto
      simp only [h1b, if_false]
      cases hb : be (.order page.restName (trim page.orderItem)) with
      | none =>
        simp [chainedRun, orderBtn_onclick, h1, h2, settle, answerNext, setStatus, markDone,
          placeOrder, fetch, hb]
      | some r =>
        cases r with
        | order f =>
          cases f with
          | ok o =>
            cases hp : be (.payment o.orderId o.amount page.forceFail) with
            | none =>
              simp [chainedRun, orderBtn_onclick, h1, h2, settle, answerNext, setStatus,
                markDone, placeOrder, fetch, hb, step, resume, callbackArg, orderBtn_cb,
                showReceipt, processPayment, hp]
            | some r2 =>
              cases r2 with
              | payment f2 =>
                cases f2 with
                | ok p =>
                  cases hd : be (.delivery o.orderId) with
                  | none =>
                    simp [chainedRun, orderBtn_onclick, h1, h2, settle, answerNext, setStatus,
                      markDone, markFailed, placeOrder, fetch, hb, step, resume, callbackArg,
                      orderBtn_cb, orderBtn_paymentCb, showReceipt,
                      processPayment, confirmDelivery, hp, hd]
                  | some r3 =>
                    cases r3 with
                    | delivery f3 =>
                      cases f3 <;>
                      simp [chainedRun, orderBtn_onclick, h1, h2, settle, answerNext, setStatus,
                        markDone, markFailed, placeOrder, fetch, hb, step, resume, callbackArg,
                        orderBtn_cb, orderBtn_paymentCb, orderBtn_deliveryCb, showReceipt,
                        processPayment, confirmDelivery, hp, hd]
                    | _ =>
                      simp [chainedRun, orderBtn_onclick, h1, h2, settle, answerNext, setStatus,
                        markDone, markFailed, placeOrder, fetch, hb, step, resume, callbackArg,
                        orderBtn_cb, orderBtn_paymentCb, showReceipt,
                        processPayment, confirmDelivery, hp, hd]
                | _ =>
                  simp [chainedRun, orderBtn_onclick, h1, h2, settle, answerNext, setStatus,
                    markDone, markFailed, placeOrder, fetch, hb, step, resume, callbackArg,
                    orderBtn_cb, orderBtn_paymentCb, showReceipt,
                    processPayment, confirmDelivery, hp]
              | _ =>
                simp [chainedRun, orderBtn_onclick, h1, h2, settle, answerNext, setStatus,
                  markDone, placeOrder, fetch, hb, step, resume, callbackArg, orderBtn_cb,
                  showReceipt, processPayment, hp]
          | _ =>
            simp [chainedRun, orderBtn_onclick, h1, h2, settle, answerNext, setStatus,
              markDone, markFailed, placeOrder, fetch, hb, step, resume, callbackArg,
              orderBtn_cb]
        | _ =>
          simp [chainedRun, orderBtn_onclick, h1, h2, settle, answerNext, setStatus,
            markDone, placeOrder, fetch, hb, step, resume]

/-- In any world, with other requests in flight or not: when the order callback
or the payment callback of the chain receives a failure, no request is sent. -/
theorem failed_reply_sends_nothing (rt : Runtime) (v : World) (i : Nat) (c : Call) :
    (∀ f : Fetched OrderRes, v.inflight.get? i = some (c, .order) → (∀ o, f ≠ .ok o) →
      (step rt v (.reply i (.order f))).calls = v.calls ∧
      (step rt v (.reply i (.order f))).inflight = v.inflight.eraseIdx i) ∧
    (∀ (o : OrderRes) (f : Fetched PayRes), v.inflight.get? i = some (c, .chainPayment o) →
      (∀ p, f ≠ .ok p) →
      (step rt v (.reply i (.payment f))).calls = v.calls ∧
      (step rt v (.reply i (.payment f))).inflight = v.inflight.eraseIdx i) := by
  obtain ⟨page, inflight, calls⟩ := v
  simp only [List.get?_eq_getElem?]
  constructor
  · intro f hin hf
    cases f with
    | ok o => exact absurd rfl (hf o)
    | failed => simp [step, hin, resume, callbackArg, orderBtn_cb, setStatus, markFailed]
    | notOk e => simp [step, hin, resume, callbackArg, orderBtn_cb, setStatus, markFailed]
  · intro o f hin hf
    cases f with
    | ok p => exact absurd rfl (hf p)
    | failed => simp [step, hin, resume, callbackArg, orderBtn_paymentCb, setStatus, markFailed]
    | notOk e => simp [step, hin, resume, callbackArg, orderBtn_paymentCb, setStatus, markFailed]

/-- C1: in a chained run started by the Place Order click on a page with no
request in flight, whatever the backend replies: if the order request does not
end in success (an error response, a network error, or no reply), no payment
and no delivery request is sent; if the order succeeds and the payment request
does not end in success, no delivery request is sent; a payment request is
sent only after the order request and its success, with the order's id and
amount; a delivery request is sent only after the payment's success, as the
third request.  Moreover, in any world and with any other requests in flight, a
failure delivered to the order callback or to the chain's payment callback
sends no request. -/
theorem chained_run_aborts_on_failure (rt : Runtime) (be : Call → Option Reply) (w : World)
    (hidle : w.inflight = []) :
    (∀ (v : World) (i : Nat) (c : Call),
      (∀ f : Fetched OrderRes, v.inflight.get? i = some (c, .order) → (∀ o, f ≠ .ok o) →
        (step rt v (.reply i (.order f))).calls = v.calls ∧
        (step rt v (.reply i (.order f))).inflight = v.inflight.eraseIdx i) ∧
      (∀ (o : OrderRes) (f : Fetched PayRes),
        v.inflight.get? i = some (c, .chainPayment o) → (∀ p, f ≠ .ok p) →
        (step rt v (.reply i (.payment f))).calls = v.calls ∧
        (step rt v (.reply i (.payment f))).inflight = v.inflight.eraseIdx i)) ∧
    ∃ new, (chainedRun rt be w).calls = w.calls ++ new ∧
      ((∀ o, be (.order w.page.restName (trim w.page.orderItem)) ≠ some (.order (.ok o))) →
        (∀ id amt ff, Call.payment id amt ff ∉ new) ∧ (∀ id, Call.delivery id ∉ new)) ∧
      (∀ o, be (.order w.page.restName (trim w.page.orderItem)) = some (.order (.ok o)) →
        (∀ p, be (.payment o.orderId o.amount w.page.forceFail) ≠ some (.payment (.ok p))) →
        ∀ id, Call.delivery id ∉ new) ∧
      (∀ id amt ff, Call.payment id amt ff ∈ new →
        ∃ o, be (.order w.page.restName (trim w.page.orderItem)) = some (.order (.ok o)) ∧
          new.take 2 = [.order w.page.restName (trim w.page.orderItem),
            .payment id amt ff] ∧
          id = o.orderId ∧ amt = o.amount ∧ ff = w.page.forceFail) ∧
      (∀ id, Call.delivery id ∈ new →
        ∃ o p, be (.order w.page.restName (trim w.page.orderItem)) = some (.order (.ok o)) ∧
          be (.payment o.orderId o.amount w.page.forceFail) = some (.payment (.ok p)) ∧
          new = [.order w.page.restName (trim w.page.orderItem),
            .payment o.orderId o.amount w.page.forceFail, .delivery id] ∧
          id = o.orderId) := by
  refine ⟨failed_reply_sends_nothing rt, _, chainedRun_calls rt be w hidle, ?_, ?_, ?_, ?_⟩
  · intro hno
    split_ifs with hg
    · simp
    · split
      · rename_i o ho
        exact absurd ho (hno o)
      · simp
  · intro o ho hno
    split_ifs with hg
    · simp
    · rw [ho]
      simp only
      cases hp : be (.payment o.orderId o.amount w.page.forceFail) with
      | none => simp
      | some r =>
        cases r with
        | payment f =>
          cases f with
          | ok p => exact absurd hp (hno p)
          | _ => simp
        | _ => simp
  · intro id amt ff hmem
    split_ifs at hmem with hg
    · simp at hmem
    · cases ho : be (.order w.page.restName (trim w.page.orderItem)) with
      | none => simp [ho] at hmem
      | some r =>
        cases r with
        | order f =>
          cases f with
          | ok o =>
            refine ⟨o, rfl, ?_⟩
            simp only [ho] at hmem
            cases hp : be (.payment o.orderId o.amount w.page.forceFail) with
            | none =>
              simp only [hp] at hmem
              simp at hmem
              obtain ⟨h1, h2, h3⟩ := hmem
              subst h1 h2 h3
              simp [hg, hp]
            | some r2 =>
              cases r2 with
              | payment f2 =>
                cases f2 <;>
                · simp only [hp] at hmem
                  simp at hmem
                  obtain ⟨h1, h2, h3⟩ := hmem
                  subst h1 h2 h3
                  simp [hg, hp]
              | _ =>
                simp only [hp] at hmem
                simp at hmem
                obtain ⟨h1, h2, h3⟩ := hmem
                subst h1 h2 h3
                simp [hg, hp]
          | _ => simp [ho] at hmem
        | _ => simp [ho] at hmem
  · intro id hmem
    split_ifs at hmem with hg
    · simp at hmem
    · cases ho : be (.order w.page.restName (trim w.page.orderItem)) with
      | none => simp [ho] at hmem
      | some r =>
        cases r with
        | order f =>
          cases f with
          | ok o =>
            simp only [ho] at hmem
            cases hp : be (.payment o.orderId o.amount w.page.forceFail) with
            | none => simp [hp] at hmem
            | some r2 =>
              cases r2 with
              | payment f2 =>
                cases f2 with
                | ok p =>
                  simp only [hp] at hmem
                  simp at hmem
                  subst hmem
                  exact ⟨o, p, rfl, hp, by simp [hg, hp], rfl⟩
                | _ => simp [hp] at hmem
              | _ => simp [hp] at hmem
          | _ => simp [ho] at hmem
        | _ => simp [ho] at hmem

/-- Witness for C1: after searching "Pasta Hub", ordering "Sushi" is answered
"Item not available."; the run sends no payment and no delivery request. -/
theorem chained_run_aborts_on_failure_witness :
    (afterSearch "Sushi").inflight = [] ∧
    ∃ new, (chainedRun demoRuntime (serve demoRuntime seedCatalog demoDraws)
        (afterSearch "Sushi")).calls = (afterSearch "Sushi").calls ++ new ∧
      (∀ id amt ff, Call.payment id amt ff ∉ new) ∧ (∀ id, Call.delivery id ∉ new) := by
  refine ⟨by rfl, ?_⟩
  obtain ⟨-, new, hcalls, hfail, -⟩ := chained_run_aborts_on_failure demoRuntime
    (serve demoRuntime seedCatalog demoDraws) (afterSearch "Sushi") (by rfl)
  refine ⟨new, hcalls, hfail ?_⟩
  intro o
  have h : serve demoRuntime seedCatalog demoDraws
      (.order (afterSearch "Sushi").page.restName (trim (afterSearch "Sushi").page.orderItem))
      = some (.order (.notOk (some "Item not available."))) := by rfl
  rw [h]
  simp

/-- A successful order response carries an id with the prefix "ORD-", and its
request passed validation. -/
theorem order_ok_inv (rt : Runtime) (catalog : Catalog) (req : OrderReq) (token : String)
    (o : OrderRes) (h : order rt catalog req token = some (.ok o)) :
    present req.restaurantName = true ∧ present req.item = true ∧
      o.orderId = "ORD-" ++ token := by
  unfold order at h
  split_ifs at h with hv
  · simp at h
  · simp only [Bool.or_eq_true, Bool.not_eq_true', not_or, Bool.not_eq_false] at hv
    refine ⟨hv.1, hv.2, ?_⟩
    simp only at h
    cases hf : findOne rt catalog (anchored (req.restaurantName.getD "")) with
    | none => simp [hf] at h
    | some found =>
      cases found with
      | none => simp [hf] at h
      | some rest =>
        simp only [hf] at h
        cases hm : rest.menu.find?
            (fun m => rt.toLowerCase m.item == rt.toLowerCase (req.item.getD "")) with
        | none => simp [hm] at h
        | some m =>
          simp only [hm, Option.some.injEq, Response.ok.injEq] at h
          rw [← h]

/-- The end of a chained run in which the three requests succeed. -/
theorem chainedRun_success (rt : Runtime) (be : Call → Option Reply) (w : World)
    (o : OrderRes) (p : PayRes) (dl : DelRes)
    (hidle : w.inflight = [])
    (h1 : w.page.restName ≠ "") (h2 : w.page.restName ≠ "—")
    (h3 : trim w.page.orderItem ≠ "")
    (ho : be (.order w.page.restName (trim w.page.orderItem)) = some (.order (.ok o)))
    (hp : be (.payment o.orderId o.amount w.page.forceFail) = some (.payment (.ok p)))
    (hd : be (.delivery o.orderId) = some (.delivery (.ok dl))) :
    (chainedRun rt be w).page.receipt = some ⟨"delivered", some o, some p, some dl⟩ ∧
    (chainedRun rt be w).page.tracker
      = ⟨.done, .done, .done, .done⟩ ∧
    (chainedRun rt be w).inflight = [] ∧
    (chainedRun rt be w).calls = w.calls ++
      [.order w.page.restName (trim w.page.orderItem),
       .payment o.orderId o.amount w.page.forceFail, .delivery o.orderId] := by
  obtain ⟨page, inflight, calls⟩ := w
  subst hidle
  simp only at h1 h2 h3 ho hp hd
  simp [chainedRun, orderBtn_onclick, h1, h2, h3, settle, answerNext, setStatus,
    markDone, placeOrder, fetch, ho, step, resume, callbackArg, orderBtn_cb,
    orderBtn_paymentCb, orderBtn_deliveryCb, showReceipt, processPayment,
    confirmDelivery, hp, hd, Tracker.set]

/-- A chained run against the server in which order and payment succeed. -/
theorem chainedRun_served (rt : Runtime) (catalog : Catalog) (d : Draws) (w : World)
    (o : OrderRes) (p : PayRes)
    (hidle : w.inflight = []) (hname : w.page.restName ≠ "—")
    (ho : order rt catalog ⟨some w.page.restName, some (trim w.page.orderItem)⟩ d.orderToken
      = some (.ok o))
    (hp : payment ⟨.str o.orderId, .num o.amount, .bool w.page.forceFail⟩
      d.paymentDraw d.paymentToken = .ok p) :
    o.orderId ≠ "" ∧
    delivery (some o.orderId) d.now = .ok ⟨"Delivered", d.now⟩ ∧
    (chainedRun rt (serve rt catalog d) w).calls = w.calls ++
      [.order w.page.restName (trim w.page.orderItem),
       .payment o.orderId o.amount w.page.forceFail, .delivery o.orderId] ∧
    (chainedRun rt (serve rt catalog d) w).page.receipt
      = some ⟨"delivered", some o, some p, some ⟨"Delivered", d.now⟩⟩ ∧
    (chainedRun rt (serve rt catalog d) w).page.tracker = ⟨.done, .done, .done, .done⟩ ∧
    (chainedRun rt (serve rt catalog d) w).inflight = [] := by
  obtain ⟨hpr, hpi, hid⟩ := order_ok_inv rt catalog _ _ o ho
  have hne : o.orderId ≠ "" := by rw [hid]; exact orderId_ne_empty _
  have hdel : delivery (some o.orderId) d.now = .ok ⟨"Delivered", d.now⟩ := by
    simp [delivery, present, hne]
  have h1 : w.page.restName ≠ "" := by simpa [present] using hpr
  have h3 : trim w.page.orderItem ≠ "" := by simpa [present] using hpi
  have hbo : serve rt catalog d (.order w.page.restName (trim w.page.orderItem))
      = some (.order (.ok o)) := by
    simp [serve, ho, toFetched]
  have hbp : serve rt catalog d (.payment o.orderId o.amount w.page.forceFail)
      = some (.payment (.ok p)) := by
    simp [serve, hp, toFetched]
  have hbd : serve rt catalog d (.delivery o.orderId)
      = some (.delivery (.ok ⟨"Delivered", d.now⟩)) := by
    simp [serve, hdel, toFetched]
  obtain ⟨r1, r2, r3, r4⟩ := chainedRun_success rt (serve rt catalog d) w o p
    ⟨"Delivered", d.now⟩ hidle h1 hname h3 hbo hbp hbd
  exact ⟨hne, hdel, r4, r1, r2, r3⟩

/-- C10: for every chained run against the server, started on a page with no
request in flight, in which the order and the payment handler succeed: the
order id is not empty, the delivery handler is called with it and succeeds,
the three requests are order, payment for the order's id and amount, and
delivery, and the final receipt is the "delivered" snapshot holding exactly the
three results.  Against the seeded catalog, after searching "Pasta Hub",
ordering "Alfredo Pasta" with a payment that is not declined ends with amount 7,
a payment id with the prefix "PAY-" and the delivery time. -/
theorem chained_run_delivered (rt : Runtime) (catalog : Catalog) (d : Draws) (w : World)
    (o : OrderRes) (p : PayRes)
    (hidle : w.inflight = []) (hname : w.page.restName ≠ "—")
    (ho : order rt catalog ⟨some w.page.restName, some (trim w.page.orderItem)⟩ d.orderToken
      = some (.ok o))
    (hp : payment ⟨.str o.orderId, .num o.amount, .bool w.page.forceFail⟩
      d.paymentDraw d.paymentToken = .ok p) :
    (o.orderId ≠ "" ∧
      delivery (some o.orderId) d.now = .ok ⟨"Delivered", d.now⟩ ∧
      (chainedRun rt (serve rt catalog d) w).calls = w.calls ++
        [.order w.page.restName (trim w.page.orderItem),
         .payment o.orderId o.amount w.page.forceFail, .delivery o.orderId] ∧
      (chainedRun rt (serve rt catalog d) w).page.receipt
        = some ⟨"delivered", some o, some p, some ⟨"Delivered", d.now⟩⟩) ∧
    (¬ d.paymentDraw < declineThreshold →
      (chainedRun demoRuntime (serve demoRuntime (seed []) d)
          (afterSearch "Alfredo Pasta")).page.receipt
        = some ⟨"delivered", some ⟨"Order placed", "ORD-" ++ d.orderToken, 7⟩,
            some ⟨"Payment success", "PAY-" ++ d.paymentToken⟩, some ⟨"Delivered", d.now⟩⟩ ∧
      "PAY-" ++ d.paymentToken ≠ "") := by
  constructor
  · obtain ⟨r1, r2, r3, r4, -, -⟩ := chainedRun_served rt catalog d w o p hidle hname ho hp
    exact ⟨r1, r2, r3, r4⟩
  · intro hdraw
    have hpay : payment ⟨.str ("ORD-" ++ d.orderToken), .num 7, .bool false⟩
        d.paymentDraw d.paymentToken = .ok ⟨"Payment success", "PAY-" ++ d.paymentToken⟩ := by
      apply payment_valid_accepted
      · simpa [JsVal.truthy] using orderId_ne_empty d.orderToken
      · rfl
      · rintro (hf | hlt)
        · simp [JsVal.truthy] at hf
        · exact hdraw hlt
    obtain ⟨-, -, -, r4, -, -⟩ := chainedRun_served demoRuntime (seed []) d
      (afterSearch "Alfredo Pasta") ⟨"Order placed", "ORD-" ++ d.orderToken, 7⟩
      ⟨"Payment success", "PAY-" ++ d.paymentToken⟩ (by rfl) (by decide) (by rfl) hpay
    refine ⟨r4, ?_⟩
    intro h
    have h2 := congrArg String.length h
    simp [String.length_append] at h2
    exact absurd h2.1 (by decide)

/-- Witness for C10: the seeded scenario with the demonstration draws. -/
theorem chained_run_delivered_witness :
    (chainedRun demoRuntime (serve demoRuntime seedCatalog demoDraws)
        (afterSearch "Alfredo Pasta")).page.receipt
      = some ⟨"delivered", some ⟨"Order placed", "ORD-K3X9QA", 7⟩,
          some ⟨"Payment success", "PAY-7HQ2M4ZP"⟩,
          some ⟨"Delivered", "2024-05-01T12:00:00.000Z"⟩⟩ :=
  (chained_run_delivered demoRuntime seedCatalog demoDraws (afterSearch "Alfredo Pasta")
    ⟨"Order placed", "ORD-K3X9QA", 7⟩ ⟨"Payment success", "PAY-7HQ2M4ZP"⟩
    (by rfl) (by decide) (by rfl)
    (payment_valid_accepted _ _ _ (by decide) (by rfl)
      (by
        rintro (hf | hlt)
        · exact absurd hf (by decide)
        · exact half_not_below_threshold hlt))).1.2.2.2

/-- The last request in flight is found at the last position. -/
theorem last_inflight_position (l : List (Call × Cont)) (x : Call × Cont) :
    (l ++ [x]).get? ((l ++ [x]).length - 1) = some x := by
  simp

/-- C9: on a page whose receipt holds an order with a non-empty orderId, when a
payment request of the chain or of the Pay button ends without success
(declined, or any other failure), the receipt stays as it is and no request is
sent; a following Pay click sends exactly one request, a payment with the
receipt's order.orderId and order.amount, and no order request; when that
request succeeds the payment flag becomes done and the receipt becomes the old
one with only the payment field replaced by the new result. -/
theorem declined_payment_retry (rt : Runtime) (w : World) (r : Receipt) (o : OrderRes)
    (i : Nat) (c : Call) (cb : Cont) (f : Fetched PayRes) (p : PayRes)
    (hr : w.page.receipt = some r) (hord : r.order = some o) (hid : o.orderId ≠ "")
    (hin : w.inflight.get? i = some (c, cb))
    (hcb : (∃ o0, cb = .chainPayment o0) ∨ (∃ r0, cb = .pay r0))
    (hdecl : ∀ q, f ≠ .ok q) :
    (step rt w (.reply i (.payment f))).page.receipt = some r ∧
    (step rt w (.reply i (.payment f))).calls = w.calls ∧
    (step rt w (.reply i (.payment f))).page.tracker.payment = .failed ∧
    (step rt (step rt w (.reply i (.payment f))) .payClick).calls
      = w.calls ++ [.payment o.orderId o.amount w.page.forceFail] ∧
    (step rt (step rt w (.reply i (.payment f))) .payClick).page.receipt = some r ∧
    (step rt (step rt (step rt w (.reply i (.payment f))) .payClick)
        (.reply ((step rt (step rt w (.reply i (.payment f))) .payClick).inflight.length - 1)
          (.payment (.ok p)))).calls
      = w.calls ++ [.payment o.orderId o.amount w.page.forceFail] ∧
    (step rt (step rt (step rt w (.reply i (.payment f))) .payClick)
        (.reply ((step rt (step rt w (.reply i (.payment f))) .payClick).inflight.length - 1)
          (.payment (.ok p)))).page.tracker.payment = .done ∧
    (step rt (step rt (step rt w (.reply i (.payment f))) .payClick)
        (.reply ((step rt (step rt w (.reply i (.payment f))) .payClick).inflight.length - 1)
          (.payment (.ok p)))).page.receipt = some { r with payment := some p } := by
  obtain ⟨page, inflight, calls⟩ := w
  simp only [List.get?_eq_getElem?] at hr hin
  have hw1 : ∃ txt, step rt ⟨page, inflight, calls⟩ (.reply i (.payment f))
      = ⟨{ page with statusText := txt,
                     tracker := page.tracker.set .payment .failed },
          inflight.eraseIdx i, calls⟩ := by
    rcases hcb with ⟨o0, rfl⟩ | ⟨r0, rfl⟩
    · cases f with
      | ok q => exact absurd rfl (hdecl q)
      | failed =>
        exact ⟨_, by simp [step, hin, resume, callbackArg, orderBtn_paymentCb, setStatus,
          markFailed]; rfl⟩
      | notOk e =>
        exact ⟨_, by simp [step, hin, resume, callbackArg, orderBtn_paymentCb, setStatus,
          markFailed]; rfl⟩
    · cases f with
      | ok q => exact absurd rfl (hdecl q)
      | failed =>
        exact ⟨_, by simp [step, hin, resume, callbackArg, payBtn_cb, setStatus, markFailed]; rfl⟩
      | notOk e =>
        exact ⟨_, by simp [step, hin, resume, callbackArg, payBtn_cb, setStatus, markFailed]; rfl⟩
  obtain ⟨txt, hw1⟩ := hw1
  rw [hw1]
  have hw2 : step rt (World.mk
        { page with statusText := txt, tracker := page.tracker.set .payment .failed }
        (inflight.eraseIdx i) calls) Event.payClick
      = ⟨{ page with
            statusText := "Processing payment of $" ++ rt.numToString o.amount ++ " ...",
            tracker := page.tracker.set .payment .failed },
          inflight.eraseIdx i ++ [(.payment o.orderId o.amount page.forceFail, .pay r)],
          calls ++ [.payment o.orderId o.amount page.forceFail]⟩ := by
    simp [step, payBtn_onclick, hr, hord, hid, processPayment, setStatus, fetch]
  rw [hw2]
  refine ⟨hr, rfl, by simp [Tracker.set], rfl, hr, ?_, ?_, ?_⟩ <;>
  · simp only [step, last_inflight_position]
    simp [resume, callbackArg, payBtn_cb, setStatus, markDone, showReceipt, Tracker.set]

/-- Witness for C9: the chain's payment is declined, the box is left ticked or
not, the Pay click sends the payment for "ORD-K3X9QA" and amount 7, and its
success adds the payment to the "order_placed" receipt. -/
theorem declined_payment_retry_witness :
    (step demoRuntime awaitingPayment
      (.reply 0 (.payment (.notOk (some "Payment declined."))))).page.receipt
      = some ⟨"order_placed", some ⟨"Order placed", "ORD-K3X9QA", 7⟩, none, none⟩ ∧
    (step demoRuntime (step demoRuntime awaitingPayment
      (.reply 0 (.payment (.notOk (some "Payment declined."))))) .payClick).calls
      = awaitingPayment.calls ++ [.payment "ORD-K3X9QA" 7 true] ∧
    (step demoRuntime (step demoRuntime (step demoRuntime awaitingPayment
      (.reply 0 (.payment (.notOk (some "Payment declined."))))) .payClick)
      (.reply 0 (.payment (.ok ⟨"Payment success", "PAY-7HQ2M4ZP"⟩)))).page.receipt
      = some ⟨"order_placed", some ⟨"Order placed", "ORD-K3X9QA", 7⟩,
          some ⟨"Payment success", "PAY-7HQ2M4ZP"⟩, none⟩ :=
  have h := declined_payment_retry demoRuntime awaitingPayment
    ⟨"order_placed", some ⟨"Order placed", "ORD-K3X9QA", 7⟩, none, none⟩
    ⟨"Order placed", "ORD-K3X9QA", 7⟩ 0 (.payment "ORD-K3X9QA" 7 true)
    (.chainPayment ⟨"Order placed", "ORD-K3X9QA", 7⟩)
    (.notOk (some "Payment declined.")) ⟨"Payment success", "PAY-7HQ2M4ZP"⟩
    (by rfl) rfl (by decide) (by rfl) (Or.inl ⟨_, rfl⟩) (by intro q hq; cases hq)
  ⟨h.1, h.2.2.2.1, h.2.2.2.2.2.2.2⟩

/-- How one event can change the flag of a stage. -/
theorem step_flag_changes (rt : Runtime) (w : World) (e : Event) (s : Stage) :
    ((step rt w e).page.tracker.get s = .failed → w.page.tracker.get s ≠ .failed →
      outcomeOf w e = some (s, false)) ∧
    (s ≠ .search → (step rt w e).page.tracker.get s = .done →
      w.page.tracker.get s ≠ .done → outcomeOf w e = some (s, true)) ∧
    ((step rt w e).page.tracker.get .search = .done → w.page.tracker.get .search ≠ .done →
      e = .searchClick ∨ e = .orderClick ∨ outcomeOf w e = some (.search, true)) ∧
    ((step rt w e).page.tracker.get s ≠ w.page.tracker.get s →
      e = .searchClick ∨ (e = .orderClick ∧ s = .search) ∨
        ∃ b, outcomeOf w e = some (s, b)) := by
  obtain ⟨page, inflight, calls⟩ := w
  cases e with
  | typeSearch x => simp [step, outcomeOf]
  | typeItem x => simp [step, outcomeOf]
  | setForceFail x => simp [step, outcomeOf]
  | searchClick =>
    by_cases hn : trim page.searchInput = "" <;> cases s <;>
      simp [step, searchBtn_onclick, resetTracker, setStatus, searchRestaurant, markDone,
        fetch, Tracker.get, Tracker.set, outcomeOf, hn]
  | orderClick =>
    by_cases h1 : page.restName = "" ∨ page.restName = "—" <;>
    by_cases h2 : trim page.orderItem = "" <;> cases s <;>
      simp [step, orderBtn_onclick, setStatus, placeOrder, markDone,
        fetch, Tracker.get, Tracker.set, outcomeOf, h1, h2]
  | payClick =>
    cases hr : page.receipt with
    | none => simp [step, payBtn_onclick, setStatus, outcomeOf, hr]
    | some r =>
      cases ho : r.order with
      | none => simp [step, payBtn_onclick, setStatus, outcomeOf, hr, ho]
      | some o =>
        by_cases hid : o.orderId = "" <;>
          simp [step, payBtn_onclick, setStatus, processPayment, fetch, outcomeOf, hr, ho, hid]
  | deliverClick =>
    cases hr : page.receipt with
    | none => simp [step, deliverBtn_onclick, setStatus, outcomeOf, hr]
    | some r =>
      cases ho : r.order with
      | none => simp [step, deliverBtn_onclick, setStatus, outcomeOf, hr, ho]
      | some o =>
        by_cases hid : o.orderId = "" <;>
          simp [step, deliverBtn_onclick, setStatus, confirmDelivery, fetch, outcomeOf, hr, ho,
            hid]
  | reply i r =>
    cases hget : inflight[i]? with
    | none => simp [step, outcomeOf, hget]
    | some pc =>
      obtain ⟨c, cb⟩ := pc
      cases cb <;> rcases r with (f | f | f | f) <;> rcases f with (_ | _ | _) <;> cases s <;>
        simp [step, outcomeOf, hget, resume, callbackArg, Fetched.isOk, searchBtn_cb,
          orderBtn_cb, orderBtn_paymentCb, orderBtn_deliveryCb, payBtn_cb, deliverBtn_cb,
          setStatus, markDone, markFailed, showReceipt, processPayment, confirmDelivery,
          fetch, Tracker.get, Tracker.set]

/-- C8 (as stated, refuted): after a complete run all four flags are done; a
Search click with an empty search box sends no request, yet the order, payment
and delivery flags leave done and become pending.  And on a fresh page a Search
click for "Sushi Bar" turns the search flag to done while the request is still
in flight, before any outcome. -/
theorem search_click_resets_flags :
    delivered.page.tracker = ⟨.done, .done, .done, .done⟩ ∧
    (run demoRuntime delivered [.typeSearch "", .searchClick]).page.tracker
      = ⟨.pending, .pending, .pending, .pending⟩ ∧
    (run demoRuntime delivered [.typeSearch "", .searchClick]).calls = delivered.calls ∧
    (boot blankPage).page.tracker.search = .pending ∧
    (run demoRuntime (boot blankPage) [.typeSearch "Sushi Bar", .searchClick]).page.tracker.search
      = .done ∧
    (run demoRuntime (boot blankPage) [.typeSearch "Sushi Bar", .searchClick]).inflight
      = [(.search "Sushi Bar", .search)] := by
  refine ⟨by rfl, by rfl, by rfl, by rfl, by rfl, by rfl⟩

/-- C8 (amended): after every sequence of events (edits, clicks and replies),
for the next event and every stage: a flag becomes failed only when a callback
of its own stage receives a failure; the order, payment and delivery flags
become done only when a callback of their own stage receives a success; the
search flag becomes done only by a Search click, a Place Order click or a
successful search; and a flag changes at all only by a Search click (which
resets the four flags), by a Place Order click (search flag only), or when a
callback of its own stage receives its outcome. -/
theorem tracker_flag_transitions (rt : Runtime) (w0 : World) (es : List Event) (e : Event)
    (s : Stage) :
    ((step rt (run rt w0 es) e).page.tracker.get s = .failed →
      (run rt w0 es).page.tracker.get s ≠ .failed →
      outcomeOf (run rt w0 es) e = some (s, false)) ∧
    (s ≠ .search → (step rt (run rt w0 es) e).page.tracker.get s = .done →
      (run rt w0 es).page.tracker.get s ≠ .done →
      outcomeOf (run rt w0 es) e = some (s, true)) ∧
    ((step rt (run rt w0 es) e).page.tracker.get .search = .done →
      (run rt w0 es).page.tracker.get .search ≠ .done →
      e = .searchClick ∨ e = .orderClick ∨ outcomeOf (run rt w0 es) e = some (.search, true)) ∧
    ((step rt (run rt w0 es) e).page.tracker.get s ≠ (run rt w0 es).page.tracker.get s →
      e = .searchClick ∨ (e = .orderClick ∧ s = .search) ∨
        ∃ b, outcomeOf (run rt w0 es) e = some (s, b)) :=
  step_flag_changes rt (run rt w0 es) e s

/-- Witness for C8 (amended): in the run of the chain against the seeded
catalog, the order flag becomes done by the successful order reply. -/
theorem tracker_flag_transitions_witness :
    outcomeOf (run demoRuntime (afterSearch "Alfredo Pasta") [.orderClick])
      (.reply 0 (.order (.ok ⟨"Order placed", "ORD-K3X9QA", 7⟩))) = some (.order, true) :=
  (tracker_flag_transitions demoRuntime (afterSearch "Alfredo Pasta") [.orderClick]
    (.reply 0 (.order (.ok ⟨"Order placed", "ORD-K3X9QA", 7⟩))) .order).2.1
    (by decide) (by rfl) (by decide)

end FoodDelivery
